import Mathlib

/-!
Verification of the financial calculation engine of the
Plant-Economics-calculator repository.

Each Python function under `src/calculations/` that a claim needs is
shallowly embedded as a Lean definition over `ℚ` (Python floats are
modelled as exact rationals; real-valued powers appear only in
`scaling_law_cost`, which is modelled over `ℝ` with `Real.rpow`).
A Python function that returns an `{'error': ...}` dictionary, or that
raises (`ZeroDivisionError`, `NameError`), is modelled as
`Except String _` with the raising point made explicit; the spec's
`DomainError` corresponds to these error results at the function boundary.
-/

namespace PlantEcon

/-! ## Time-value primitives (`src/calculations/interest.py`) -/

/-- Result dictionary of `compound_interest`. -/
structure CompoundInterestResult where
  future_value : ℚ
  compound_interest : ℚ
  principal : ℚ
  rate : ℚ
  periods : ℕ
deriving DecidableEq

/-- `compound_interest(principal, interest_rate, time_periods)`:
`future_value = principal * (1 + interest_rate) ** time_periods`. -/
def compound_interest (principal interest_rate : ℚ) (time_periods : ℕ) :
    CompoundInterestResult :=
  let future_value := principal * (1 + interest_rate) ^ time_periods
  { future_value := future_value
    compound_interest := future_value - principal
    principal := principal
    rate := interest_rate
    periods := time_periods }

/-- `present_worth(future_value, interest_rate, time_periods)`:
`future_value / ((1 + interest_rate) ** time_periods)`. -/
def present_worth (future_value interest_rate : ℚ) (time_periods : ℕ) : ℚ :=
  future_value / ((1 + interest_rate) ^ time_periods)

/-- `uniform_series_present_worth(annual_payment, interest_rate, time_periods)`:
zero-rate special case `annual_payment * time_periods`, otherwise
`annual_payment * ((1+i)^n - 1) / (i * (1+i)^n)`. -/
def uniform_series_present_worth (annual_payment interest_rate : ℚ)
    (time_periods : ℕ) : ℚ :=
  if interest_rate = 0 then annual_payment * time_periods
  else
    let factor := ((1 + interest_rate) ^ time_periods - 1) /
      (interest_rate * (1 + interest_rate) ^ time_periods)
    annual_payment * factor

/-- `uniform_series_future_worth(annual_payment, interest_rate, time_periods)`:
zero-rate special case `annual_payment * time_periods`, otherwise
`annual_payment * ((1+i)^n - 1) / i`. -/
def uniform_series_future_worth (annual_payment interest_rate : ℚ)
    (time_periods : ℕ) : ℚ :=
  if interest_rate = 0 then annual_payment * time_periods
  else
    let factor := ((1 + interest_rate) ^ time_periods - 1) / interest_rate
    annual_payment * factor

/-! ## Break-even engine (`src/calculations/breakeven.py`) -/

/-- Result dictionary of `calculate_breakeven_units` (success case). -/
structure BreakevenResult where
  breakeven_units : ℚ
  breakeven_sales : ℚ
  contribution_margin_per_unit : ℚ
  contribution_margin_ratio : ℚ
  fixed_costs : ℚ
  variable_cost_per_unit : ℚ
  selling_price_per_unit : ℚ
deriving DecidableEq

/-- `calculate_breakeven_units(fixed_costs, selling_price_per_unit,
variable_cost_per_unit)`: returns the `{'error': ...}` dictionary (modelled
as `Except.error`) when `selling_price_per_unit <= variable_cost_per_unit`,
otherwise the break-even result dictionary. -/
def calculate_breakeven_units (fixed_costs selling_price_per_unit
    variable_cost_per_unit : ℚ) : Except String BreakevenResult :=
  if selling_price_per_unit ≤ variable_cost_per_unit then
    Except.error "Selling price must be greater than variable cost per unit"
  else
    let contribution_margin := selling_price_per_unit - variable_cost_per_unit
    let breakeven_units := fixed_costs / contribution_margin
    let breakeven_sales := breakeven_units * selling_price_per_unit
    Except.ok
      { breakeven_units := breakeven_units
        breakeven_sales := breakeven_sales
        contribution_margin_per_unit := contribution_margin
        contribution_margin_ratio := contribution_margin / selling_price_per_unit
        fixed_costs := fixed_costs
        variable_cost_per_unit := variable_cost_per_unit
        selling_price_per_unit := selling_price_per_unit }

/-! ## Profitability engine (`src/calculations/profitability.py`) -/

/-- Result dictionary of `calculate_npv_uniform`; the `pw_factor` key is
`project_life` itself in the zero-rate case. -/
structure NpvUniformResult where
  npv : ℚ
  total_pv_inflows : ℚ
  initial_investment : ℚ
  annual_cash_flow : ℚ
  project_life : ℕ
  discount_rate : ℚ
  pw_factor : ℚ
deriving DecidableEq

/-- `calculate_npv_uniform(annual_cash_flow, discount_rate, project_life,
initial_investment)`: `total_pv = A * life` at rate zero, otherwise
`A * ((1+i)^n - 1) / (i * (1+i)^n)`; `npv = total_pv - initial_investment`. -/
def calculate_npv_uniform (annual_cash_flow discount_rate : ℚ)
    (project_life : ℕ) (initial_investment : ℚ) : NpvUniformResult :=
  if discount_rate = 0 then
    { npv := annual_cash_flow * project_life - initial_investment
      total_pv_inflows := annual_cash_flow * project_life
      initial_investment := initial_investment
      annual_cash_flow := annual_cash_flow
      project_life := project_life
      discount_rate := discount_rate
      pw_factor := project_life }
  else
    let pw_factor := ((1 + discount_rate) ^ project_life - 1) /
      (discount_rate * (1 + discount_rate) ^ project_life)
    let total_pv := annual_cash_flow * pw_factor
    { npv := total_pv - initial_investment
      total_pv_inflows := total_pv
      initial_investment := initial_investment
      annual_cash_flow := annual_cash_flow
      project_life := project_life
      discount_rate := discount_rate
      pw_factor := pw_factor }

/-- The inner `npv_equation(rate)` of `calculate_irr_uniform`. -/
def npv_equation (annual_cash_flow : ℚ) (project_life : ℕ)
    (initial_investment rate : ℚ) : ℚ :=
  if rate = 0 then annual_cash_flow * project_life - initial_investment
  else
    let pw_factor := ((1 + rate) ^ project_life - 1) /
      (rate * (1 + rate) ^ project_life)
    annual_cash_flow * pw_factor - initial_investment

/-- `calculate_irr_uniform(annual_cash_flow, project_life, initial_investment)`.
The `scipy.optimize.fsolve` output is opaque numeric search, modelled by the
extra argument `fsolve_output` ranging over every value the solver could
produce; the function then applies the source's own acceptance test
`abs(npv_equation(irr)) < 1e-6 and irr > -0.99`, returning `none` (Python
`None`) when it fails.  The `try/except` that turns an exception inside the
search or the test into `None` is covered by the same guard: the only
division by zero in `npv_equation` happens at `rate = -1`, which the guard
`irr > -0.99` rejects anyway. -/
def calculate_irr_uniform (fsolve_output annual_cash_flow : ℚ)
    (project_life : ℕ) (initial_investment : ℚ) : Option ℚ :=
  if |npv_equation annual_cash_flow project_life initial_investment
        fsolve_output| < 1 / 1000000 ∧ fsolve_output > -(99 / 100) then
    some fsolve_output
  else
    none

/-! ## Depreciation engine (`src/calculations/depreciation.py`),
declining-balance method -/

/-- One row of the declining-balance yearly table. -/
structure DepYearRow where
  year : ℕ
  annual_depreciation : ℚ
  cumulative_depreciation : ℚ
  book_value : ℚ
deriving DecidableEq

/-- The loop body of `declining_balance_depreciation`: for each remaining
year it takes `year_depreciation = book_value * rate`, caps it at
`book_value - salvage` when the uncapped charge would push the book value
below salvage, and appends the row. -/
def declining_balance_rows (purchase_cost depreciation_rate salvage_value : ℚ) :
    ℚ → ℕ → ℕ → List DepYearRow
  | _, 0, _ => []
  | current_book_value, remaining + 1, year =>
    let year_depreciation₀ := current_book_value * depreciation_rate
    let year_depreciation :=
      if current_book_value - year_depreciation₀ < salvage_value then
        current_book_value - salvage_value
      else year_depreciation₀
    let next_book_value := current_book_value - year_depreciation
    { year := year
      annual_depreciation := year_depreciation
      cumulative_depreciation := purchase_cost - next_book_value
      book_value := next_book_value } ::
      declining_balance_rows purchase_cost depreciation_rate salvage_value
        next_book_value remaining (year + 1)

/-- Result dictionary of `declining_balance_depreciation`. -/
structure DecliningBalanceResult where
  method : String
  depreciation_rate : ℚ
  total_depreciation : ℚ
  depreciation_table : List DepYearRow
deriving DecidableEq

/-- `declining_balance_depreciation(purchase_cost, salvage_value,
useful_life, depreciation_rate=None)`: the rate defaults to
`2.0 / useful_life` when `None`; the yearly table runs over
`year in range(1, useful_life + 1)` starting from
`current_book_value = purchase_cost`. -/
def declining_balance_depreciation (purchase_cost salvage_value : ℚ)
    (useful_life : ℕ) (depreciation_rate : Option ℚ) :
    DecliningBalanceResult :=
  let rate := depreciation_rate.getD (2 / (useful_life : ℚ))
  let table := declining_balance_rows purchase_cost rate salvage_value
    purchase_cost useful_life 1
  { method := "Declining Balance"
    depreciation_rate := rate
    total_depreciation := (table.map (fun r => r.annual_depreciation)).sum
    depreciation_table := table }

/-! ## Depreciation engine (`src/calculations/depreciation.py`),
sinking-fund method -/

/-- The keys `sinking_fund_depreciation`'s `return` statement names.  The
source never produces this structure: see `sinking_fund_depreciation`. -/
structure SinkingFundResult where
  method : String
  annual_payment : ℚ
  interest_rate : ℚ
  total_depreciation : ℚ
deriving DecidableEq

/-- `sinking_fund_depreciation(purchase_cost, salvage_value, useful_life,
interest_rate)`: computes `total_depreciation = cost - salvage` and the
annual payment (zero-rate special case `total/life`, otherwise
`total * i / ((1+i)^life - 1)`), builds the year table in local lists — and
then its `return` dictionary reads the undefined name `total_depriciation`
(a misspelling of `total_depreciation`), so every call raises `NameError`
and the function never returns; the built table is not even mentioned in
the `return` dictionary.  The raise is modelled as `Except.error`. -/
def sinking_fund_depreciation (purchase_cost salvage_value : ℚ)
    (useful_life : ℕ) (interest_rate : ℚ) : Except String SinkingFundResult :=
  let total_depreciation := purchase_cost - salvage_value
  let annual_payment :=
    if interest_rate = 0 then total_depreciation / useful_life
    else total_depreciation * interest_rate /
      ((1 + interest_rate) ^ useful_life - 1)
  let _ := annual_payment
  let _ := useful_life
  Except.error "NameError: name total_depriciation is not defined"

/-! ## Replacement / economic-life engine (`src/calculations/replacement.py`) -/

/-- `present_worth_annuity_factor(interest_rate, periods)`: `periods` at rate
zero, otherwise `((1+i)^n - 1) / (i * (1+i)^n)`. -/
def present_worth_annuity_factor (interest_rate : ℚ) (periods : ℕ) : ℚ :=
  if interest_rate = 0 then periods
  else ((1 + interest_rate) ^ periods - 1) /
    (interest_rate * (1 + interest_rate) ^ periods)

/-- One entry appended per candidate life `n` by the loop of
`economic_life_analysis`. -/
structure EacEntry where
  year : ℕ
  equivalent_annual_cost : ℚ
  present_worth_total : ℚ
  present_worth_operating : ℚ
  present_worth_salvage : ℚ
deriving DecidableEq

/-- Loop body of `economic_life_analysis` for candidate life `n`
(`1 ≤ n ≤ len(annual_costs)`):
`pw_operating = sum(annual_costs[i] / (1+i)^(i+1) for i in range(n))`,
`pw_salvage = salvage_values[n-1] / (1+i)^n`,
`total_pw = equipment_cost + pw_operating - pw_salvage`,
`eac = total_pw / present_worth_annuity_factor(rate, n)`.
List indexing is modelled with `getD`; within the claimed input domain
(equal-length non-empty lists) every access is in bounds. -/
def economic_life_entry (equipment_cost : ℚ)
    (salvage_values annual_costs : List ℚ) (interest_rate : ℚ) (n : ℕ) :
    EacEntry :=
  let pw_operating := ((List.range n).map
    (fun i => annual_costs.getD i 0 / (1 + interest_rate) ^ (i + 1))).sum
  let pw_initial := equipment_cost
  let pw_salvage := salvage_values.getD (n - 1) 0 / (1 + interest_rate) ^ n
  let total_pw := pw_initial + pw_operating - pw_salvage
  let pw_factor := present_worth_annuity_factor interest_rate n
  { year := n
    equivalent_annual_cost := total_pw / pw_factor
    present_worth_total := total_pw
    present_worth_operating := pw_operating
    present_worth_salvage := pw_salvage }

/-- Python `min(range(len(l)), key=lambda i: l[i])`: the first index of `l`
attaining the minimum value (`min` keeps the earliest minimal element). -/
def first_min_index : List ℚ → ℕ
  | [] => 0
  | [_] => 0
  | x :: y :: ys =>
    if x ≤ (y :: ys).getD (first_min_index (y :: ys)) 0 then 0
    else first_min_index (y :: ys) + 1

/-- Result dictionary of `economic_life_analysis`. -/
structure EconomicLifeResult where
  optimal_economic_life : ℕ
  minimum_equivalent_annual_cost : ℚ
  eac_analysis : List EacEntry
  equipment_cost : ℚ
  interest_rate : ℚ
deriving DecidableEq

/-- `economic_life_analysis(equipment_cost, salvage_values, annual_costs,
interest_rate)`: builds one EAC entry per candidate life
`n in range(1, len(annual_costs)+1)`, then picks
`min_eac_index = min(range(len(entries)), key=lambda i: entries[i].eac)`
and reports that entry's year and EAC. -/
def economic_life_analysis (equipment_cost : ℚ)
    (salvage_values annual_costs : List ℚ) (interest_rate : ℚ) :
    EconomicLifeResult :=
  let years := annual_costs.length
  let entries := (List.range years).map
    (fun i => economic_life_entry equipment_cost salvage_values annual_costs
      interest_rate (i + 1))
  let min_eac_index :=
    first_min_index (entries.map (fun e => e.equivalent_annual_cost))
  { optimal_economic_life := (entries.getD min_eac_index ⟨0, 0, 0, 0, 0⟩).year
    minimum_equivalent_annual_cost :=
      (entries.getD min_eac_index ⟨0, 0, 0, 0, 0⟩).equivalent_annual_cost
    eac_analysis := entries
    equipment_cost := equipment_cost
    interest_rate := interest_rate }

/-! ## Cost estimation engine (`src/calculations/cost_estimation.py`) -/

/-- Result dictionary of `scaling_law_cost` (success case). -/
structure ScalingLawResult where
  new_cost : ℝ
  base_cost : ℝ
  capacity_ratio : ℝ
  cost_ratio : ℝ
  scaling_exponent : ℝ
  cost_per_unit_capacity : ℝ

/-- `scaling_law_cost(base_cost, base_capacity, new_capacity,
scaling_exponent=0.6)`: the only domain check in the source is
`base_capacity == 0`, answered with the `{'error': 'Base capacity cannot
be zero'}` dictionary; no sign check exists.  The float power `**` is
modelled by `Real.rpow`.  The two unguarded divisions that Python would
raise `ZeroDivisionError` on (`cost_ratio = new_cost / base_cost` when
`base_cost = 0`, since then `new_cost = 0`, and
`cost_per_unit_capacity = new_cost / new_capacity` when
`new_capacity = 0`) are modelled as explicit `ZeroDivisionError` results. -/
noncomputable def scaling_law_cost
    (base_cost base_capacity new_capacity scaling_exponent : ℝ) :
    Except String ScalingLawResult :=
  if base_capacity = 0 then Except.error "Base capacity cannot be zero"
  else
    let capacity_ratio := new_capacity / base_capacity
    let new_cost := base_cost * capacity_ratio ^ scaling_exponent
    if base_cost = 0 then
      Except.error "ZeroDivisionError: float division by zero"
    else if new_capacity = 0 then
      Except.error "ZeroDivisionError: float division by zero"
    else
      Except.ok
        { new_cost := new_cost
          base_cost := base_cost
          capacity_ratio := capacity_ratio
          cost_ratio := new_cost / base_cost
          scaling_exponent := scaling_exponent
          cost_per_unit_capacity := new_cost / new_capacity }

/-- Result dictionary of `lang_factor_estimate` (success case). -/
structure LangFactorResult where
  total_plant_cost : ℚ
  total_equipment_cost : ℚ
  installation_cost : ℚ
  lang_factor : ℚ
  equipment_percentage : ℚ
  installation_percentage : ℚ
deriving DecidableEq

/-- `lang_factor_estimate(equipment_costs, lang_factor)`, scalar-input path
(the list path first sums the costs): `total_plant_cost = lang_factor *
total_equipment_cost`, then the percentages divide by `total_plant_cost`
with no guard — Python raises `ZeroDivisionError` when it is zero, modelled
as an explicit error result. -/
def lang_factor_estimate (equipment_costs lang_factor : ℚ) :
    Except String LangFactorResult :=
  let total_equipment_cost := equipment_costs
  let total_plant_cost := lang_factor * total_equipment_cost
  let installation_cost := total_plant_cost - total_equipment_cost
  if total_plant_cost = 0 then
    Except.error "ZeroDivisionError: float division by zero"
  else
    Except.ok
      { total_plant_cost := total_plant_cost
        total_equipment_cost := total_equipment_cost
        installation_cost := installation_cost
        lang_factor := lang_factor
        equipment_percentage := total_equipment_cost / total_plant_cost * 100
        installation_percentage := installation_cost / total_plant_cost * 100 }

/-- The `'Chemical Processing'` factor set of `detailed_cost_breakdown`. -/
def chemical_processing_factors : List (String × ℚ) :=
  [("equipment", 1), ("installation", 45 / 100),
   ("instrumentation", 25 / 100), ("piping", 35 / 100),
   ("electrical", 15 / 100), ("buildings", 20 / 100),
   ("utilities", 30 / 100), ("site_preparation", 10 / 100),
   ("engineering", 25 / 100), ("contingency", 15 / 100)]

/-- The `'Petrochemical'` factor set of `detailed_cost_breakdown`. -/
def petrochemical_factors : List (String × ℚ) :=
  [("equipment", 1), ("installation", 40 / 100),
   ("instrumentation", 30 / 100), ("piping", 40 / 100),
   ("electrical", 20 / 100), ("buildings", 15 / 100),
   ("utilities", 35 / 100), ("site_preparation", 8 / 100),
   ("engineering", 30 / 100), ("contingency", 20 / 100)]

/-- Result dictionary of `detailed_cost_breakdown`; the `costs` and
`percentages` dictionaries are modelled as ordered association lists. -/
structure CostBreakdownResult where
  costs : List (String × ℚ)
  percentages : List (String × ℚ)
  total_fixed_capital : ℚ
  equipment_cost : ℚ
  industry_type : String
deriving DecidableEq

/-- `detailed_cost_breakdown(equipment_cost, industry_type='Chemical
Processing')`: when `industry_type` is not a key of the factor table the
source reassigns `industry_type = 'Chemical Processing'` before looking up
the factor set and before placing `industry_type` in the result. -/
def detailed_cost_breakdown (equipment_cost : ℚ) (industry_type : String) :
    CostBreakdownResult :=
  let industry := if industry_type = "Chemical Processing" ∨
      industry_type = "Petrochemical" then industry_type
    else "Chemical Processing"
  let factor_set := if industry = "Petrochemical" then petrochemical_factors
    else chemical_processing_factors
  let costs := factor_set.map (fun p => (p.1, equipment_cost * p.2))
  let total_cost := (costs.map (fun p => p.2)).sum
  let percentages := costs.map (fun p => (p.1, p.2 / total_cost * 100))
  { costs := costs
    percentages := percentages
    total_fixed_capital := total_cost
    equipment_cost := equipment_cost
    industry_type := industry }

end PlantEcon

namespace PlantEcon

/-! ## Theorems for claims C1, C6, C7 -/

/-- C1: for every input with `price ≤ variableCost`, `calculate_breakeven_units`
fails at the function boundary with the domain error (the `{'error': ...}`
return, the spec's `DomainError`) and does not return an ordinary result. -/
theorem breakeven_units_rejects_nonpositive_margin
    (fixed_costs selling_price variable_cost : ℚ)
    (h : selling_price ≤ variable_cost) :
    calculate_breakeven_units fixed_costs selling_price variable_cost =
      Except.error "Selling price must be greater than variable cost per unit" := by
  simp [calculate_breakeven_units, h]

/-- Witness for C1 at the spec's boundary example shape
(`fixedCosts = 500000`, `price = 15`, `variableCost = 15`). -/
theorem breakeven_units_rejects_nonpositive_margin_witness :
    (15 : ℚ) ≤ 15 ∧
      calculate_breakeven_units 500000 15 15 =
        Except.error "Selling price must be greater than variable cost per unit" :=
  ⟨by norm_num, breakeven_units_rejects_nonpositive_margin 500000 15 15 (by norm_num)⟩

/-- C6: round-trip law — feeding `compound_interest`'s future value into
`present_worth` with the same rate and periods returns the principal
(exactly, over ℚ, hence within any floating-point tolerance). -/
theorem present_worth_compound_interest_roundtrip
    (P r : ℚ) (n : ℕ) (hP : 0 < P) (hr : 0 ≤ r) (hn : 1 ≤ n) :
    present_worth (compound_interest P r n).future_value r n = P := by
  have hbase : (0 : ℚ) < 1 + r := by linarith
  have hpow : (1 + r) ^ n ≠ 0 := (pow_pos hbase n).ne'
  simp only [present_worth, compound_interest]
  field_simp

/-- Witness for C6 at `P = 100`, `r = 1/10`, `n = 2`. -/
theorem present_worth_compound_interest_roundtrip_witness :
    (0 : ℚ) < 100 ∧ (0 : ℚ) ≤ 1 / 10 ∧ 1 ≤ 2 ∧
      present_worth (compound_interest 100 (1 / 10) 2).future_value (1 / 10) 2 = 100 :=
  ⟨by norm_num, by norm_num, by norm_num,
    present_worth_compound_interest_roundtrip 100 (1 / 10) 2
      (by norm_num) (by norm_num) (by norm_num)⟩

/-- C7: at rate zero both annuity worth functions return exactly
`payment * periods` (the special case that avoids the division by zero in the
general annuity-factor formula). -/
theorem annuity_worth_zero_rate (A : ℚ) (n : ℕ) (hn : 1 ≤ n) :
    uniform_series_present_worth A 0 n = A * n ∧
      uniform_series_future_worth A 0 n = A * n := by
  constructor
  · simp [uniform_series_present_worth]
  · simp [uniform_series_future_worth]

/-- Witness for C7 at `A = 7`, `n = 3`. -/
theorem annuity_worth_zero_rate_witness :
    (1 ≤ 3) ∧
      (uniform_series_present_worth 7 0 3 = 7 * 3 ∧
        uniform_series_future_worth 7 0 3 = 7 * 3) :=
  ⟨by norm_num, annuity_worth_zero_rate 7 3 (by norm_num)⟩

/-! ## Theorems for claims C2, C3 -/

/-- C2: the sinking-fund method never returns the documented result
structure — for every valid input (`salvage < cost`, `life ≥ 1`,
`rate ≥ 0`) the call fails with the `NameError` raised by the undefined
name `total_depriciation` in its `return` statement, contradicting the
function's own docstring and the spec. -/
theorem sinking_fund_depreciation_always_raises
    (purchase_cost salvage_value : ℚ) (useful_life : ℕ) (interest_rate : ℚ)
    (hs : salvage_value < purchase_cost) (hl : 1 ≤ useful_life)
    (hr : 0 ≤ interest_rate) :
    sinking_fund_depreciation purchase_cost salvage_value useful_life
        interest_rate =
      Except.error "NameError: name total_depriciation is not defined" := rfl

/-- Witness for C2 at `cost = 10000`, `salvage = 1000`, `life = 5`,
`rate = 1/20`. -/
theorem sinking_fund_depreciation_always_raises_witness :
    (1000 : ℚ) < 10000 ∧ 1 ≤ 5 ∧ (0 : ℚ) ≤ 1 / 20 ∧
      sinking_fund_depreciation 10000 1000 5 (1 / 20) =
        Except.error "NameError: name total_depriciation is not defined" :=
  ⟨by norm_num, by norm_num, by norm_num,
    sinking_fund_depreciation_always_raises 10000 1000 5 (1 / 20)
      (by norm_num) (by norm_num) (by norm_num)⟩

/-- The `npv` field of `calculate_npv_uniform` coincides with the inner
`npv_equation` of the IRR search. -/
theorem npv_uniform_eq_npv_equation (annual_cash_flow rate : ℚ)
    (project_life : ℕ) (initial_investment : ℚ) :
    (calculate_npv_uniform annual_cash_flow rate project_life
        initial_investment).npv =
      npv_equation annual_cash_flow project_life initial_investment rate := by
  unfold calculate_npv_uniform npv_equation
  split <;> rfl

/-- C3: whatever value the root search produces, `calculate_irr_uniform`
either returns `None` or a rate at which its own `calculate_npv_uniform`
NPV is within `1e-4` of zero (the source enforces the stricter `1e-6`);
a non-convergent search is never coerced to a returned number. -/
theorem irr_uniform_self_consistent (fsolve_output annual_cash_flow : ℚ)
    (project_life : ℕ) (initial_investment r : ℚ)
    (h : calculate_irr_uniform fsolve_output annual_cash_flow project_life
        initial_investment = some r) :
    |(calculate_npv_uniform annual_cash_flow r project_life
        initial_investment).npv| ≤ 1 / 10000 := by
  unfold calculate_irr_uniform at h
  split at h
  case isTrue hc =>
    cases h
    rw [npv_uniform_eq_npv_equation]
    have := hc.1
    linarith [this]
  case isFalse hc =>
    exact absurd h (by simp)

/-- Witness for C3: the solver output `1/10` is accepted for
`A = 110`, `life = 1`, `I = 100`, and the NPV there is within tolerance. -/
theorem irr_uniform_self_consistent_witness :
    calculate_irr_uniform (1 / 10) 110 1 100 = some (1 / 10) ∧
      |(calculate_npv_uniform 110 (1 / 10) 1 100).npv| ≤ 1 / 10000 :=
  ⟨by norm_num [calculate_irr_uniform, npv_equation],
    irr_uniform_self_consistent (1 / 10) 110 1 100 (1 / 10)
      (by norm_num [calculate_irr_uniform, npv_equation])⟩

/-! ## Theorems for claim C4 -/

/-- Unfolding equation for one loop iteration of the declining-balance
table. -/
theorem declining_balance_rows_succ (pc rate sv bv : ℚ) (k year : ℕ) :
    declining_balance_rows pc rate sv bv (k + 1) year =
      { year := year
        annual_depreciation := if bv - bv * rate < sv then bv - sv else bv * rate
        cumulative_depreciation :=
          pc - (bv - (if bv - bv * rate < sv then bv - sv else bv * rate))
        book_value :=
          bv - (if bv - bv * rate < sv then bv - sv else bv * rate) } ::
        declining_balance_rows pc rate sv
          (bv - (if bv - bv * rate < sv then bv - sv else bv * rate)) k
          (year + 1) := rfl

/-- A chain starting at `a` yields a chain over the list itself. -/
theorem chain'_of_chain {α : Type} {R : α → α → Prop} {a : α} {l : List α}
    (h : List.Chain R a l) : List.Chain' R l := by
  cases h with
  | nil => trivial
  | cons hab hl => exact hl

/-- Loop invariant of the declining-balance schedule: with a non-negative
rate and non-negative salvage, every generated book value stays at or above
salvage, and the book values decrease weakly from the starting value on. -/
theorem declining_balance_rows_invariant (pc rate sv : ℚ)
    (hr : 0 ≤ rate) (hsv : 0 ≤ sv) :
    ∀ (remaining year : ℕ) (bv : ℚ), sv ≤ bv →
      (∀ row ∈ declining_balance_rows pc rate sv bv remaining year,
          sv ≤ row.book_value) ∧
      List.Chain (fun a b => b ≤ a) bv
        ((declining_balance_rows pc rate sv bv remaining year).map
          (fun r => r.book_value)) := by
  intro remaining
  induction remaining with
  | zero =>
    intro year bv hbv
    refine ⟨?_, ?_⟩
    · intro row hrow
      simp [declining_balance_rows] at hrow
    · simp only [declining_balance_rows, List.map_nil]
      exact List.Chain.nil
  | succ k ih =>
    intro year bv hbv
    rw [declining_balance_rows_succ]
    set next := bv - (if bv - bv * rate < sv then bv - sv else bv * rate)
      with hnext_def
    have hnext_ge : sv ≤ next := by
      rw [hnext_def]
      by_cases h : bv - bv * rate < sv
      · rw [if_pos h]; linarith
      · rw [if_neg h]; linarith [not_lt.mp h]
    have hnext_le : next ≤ bv := by
      rw [hnext_def]
      by_cases h : bv - bv * rate < sv
      · rw [if_pos h]; linarith
      · rw [if_neg h]
        have hbv0 : 0 ≤ bv := le_trans hsv hbv
        nlinarith
    obtain ⟨ih1, ih2⟩ := ih (year + 1) next hnext_ge
    refine ⟨?_, ?_⟩
    · intro row hrow
      rcases List.mem_cons.mp hrow with heq | hmem
      · rw [heq]
        exact hnext_ge
      · exact ih1 row hmem
    · rw [List.map_cons]
      exact List.Chain.cons hnext_le ih2

/-- C4 counterexample: with `cost = 100`, `salvage = 0`, `life = 2` — inside
the claim's stated input domain `0 ≤ salvage < cost`, `life ≥ 1` — and an
explicit `depreciation_rate = -1`, the generated book-value column is
`[200, 400]`: strictly increasing, so not non-increasing as claimed. -/
theorem declining_balance_book_value_counterexample :
    (0 : ℚ) ≤ 0 ∧ (0 : ℚ) < 100 ∧ 1 ≤ 2 ∧
      ¬ List.Chain' (fun a b : ℚ => b ≤ a)
        (((declining_balance_depreciation 100 0 2
            (some (-1))).depreciation_table).map (fun r => r.book_value)) := by
  refine ⟨by norm_num, by norm_num, by norm_num, ?_⟩
  intro hchain
  have htbl : (declining_balance_depreciation 100 0 2
      (some (-1))).depreciation_table =
      declining_balance_rows 100 (-1) 0 100 2 1 := by
    simp only [declining_balance_depreciation, Option.getD_some]
  have h1 : declining_balance_rows 100 (-1) 0 100 2 1 =
      { year := 1, annual_depreciation := -100,
        cumulative_depreciation := -100, book_value := 200 } ::
        declining_balance_rows 100 (-1) 0 200 1 2 := by
    show declining_balance_rows 100 (-1) 0 100 (1 + 1) 1 = _
    rw [declining_balance_rows_succ]
    norm_num
  have h2 : declining_balance_rows 100 (-1) 0 200 1 2 =
      { year := 2, annual_depreciation := -200,
        cumulative_depreciation := -300, book_value := 400 } ::
        declining_balance_rows 100 (-1) 0 400 0 3 := by
    show declining_balance_rows 100 (-1) 0 200 (0 + 1) 2 = _
    rw [declining_balance_rows_succ]
    norm_num
  have h3 : declining_balance_rows 100 (-1) 0 400 0 3 = [] := rfl
  rw [htbl, h1, h2, h3] at hchain
  simp only [List.map_cons, List.map_nil] at hchain
  have hle : (400 : ℚ) ≤ 200 := (List.chain'_cons.mp hchain).1
  norm_num at hle

/-- C4 amended: for every declining-balance table generated from inputs with
`0 ≤ salvage < cost`, `life ≥ 1`, and a non-negative effective rate (the
supplied rate, or the default `2/life` when omitted), the book-value column
is non-increasing year to year and every entry is `≥ salvage`. -/
theorem declining_balance_book_value_invariant (purchase_cost salvage_value : ℚ)
    (useful_life : ℕ) (depreciation_rate : Option ℚ)
    (h0 : 0 ≤ salvage_value) (h1 : salvage_value < purchase_cost)
    (h2 : 1 ≤ useful_life)
    (hr : 0 ≤ depreciation_rate.getD (2 / (useful_life : ℚ))) :
    (∀ row ∈ (declining_balance_depreciation purchase_cost salvage_value
        useful_life depreciation_rate).depreciation_table,
      salvage_value ≤ row.book_value) ∧
    List.Chain' (fun a b : ℚ => b ≤ a)
      (((declining_balance_depreciation purchase_cost salvage_value
          useful_life depreciation_rate).depreciation_table).map
        (fun r => r.book_value)) := by
  obtain ⟨hall, hchain⟩ :=
    declining_balance_rows_invariant purchase_cost
      (depreciation_rate.getD (2 / (useful_life : ℚ))) salvage_value hr h0
      useful_life 1 purchase_cost h1.le
  exact ⟨hall, chain'_of_chain hchain⟩

/-- Witness for the amended C4 at `cost = 100`, `salvage = 10`, `life = 3`,
default rate `2/3`. -/
theorem declining_balance_book_value_invariant_witness :
    ((0 : ℚ) ≤ 10 ∧ (10 : ℚ) < 100 ∧ 1 ≤ 3 ∧
      (0 : ℚ) ≤ (none : Option ℚ).getD (2 / ((3 : ℕ) : ℚ))) ∧
    ((∀ row ∈ (declining_balance_depreciation 100 10 3
        none).depreciation_table, (10 : ℚ) ≤ row.book_value) ∧
      List.Chain' (fun a b : ℚ => b ≤ a)
        (((declining_balance_depreciation 100 10 3
            none).depreciation_table).map (fun r => r.book_value))) :=
  ⟨⟨by norm_num, by norm_num, by norm_num, by norm_num⟩,
    declining_balance_book_value_invariant 100 10 3 none
      (by norm_num) (by norm_num) (by norm_num) (by norm_num)⟩

/-! ## Theorems for claim C5 -/

/-- On a non-empty list, `first_min_index` is a valid index. -/
theorem first_min_index_lt_length :
    ∀ (l : List ℚ), l ≠ [] → first_min_index l < l.length := by
  intro l
  induction l with
  | nil => intro h; exact absurd rfl h
  | cons x xs ih =>
    intro _
    cases xs with
    | nil => simp [first_min_index]
    | cons y ys =>
      simp only [first_min_index]
      split
      · simp
      · have := ih (by simp)
        simp only [List.length_cons] at this ⊢
        omega

/-- The element at `first_min_index` is a minimum of the list. -/
theorem first_min_index_min (l : List ℚ) :
    ∀ j, j < l.length → l.getD (first_min_index l) 0 ≤ l.getD j 0 := by
  induction l with
  | nil => intro j hj; simp at hj
  | cons x xs ih =>
    cases xs with
    | nil =>
      intro j hj
      have hj0 : j = 0 := by simpa using hj
      subst hj0
      simp [first_min_index]
    | cons y ys =>
      intro j hj
      simp only [first_min_index]
      by_cases hx : x ≤ (y :: ys).getD (first_min_index (y :: ys)) 0
      · rw [if_pos hx]
        cases j with
        | zero => simp
        | succ j' =>
          have hj' : j' < (y :: ys).length := by
            simpa using Nat.lt_of_succ_lt_succ hj
          simp only [List.getD_cons_zero, List.getD_cons_succ]
          exact le_trans hx (ih j' hj')
      · rw [if_neg hx]
        cases j with
        | zero =>
          simp only [List.getD_cons_succ, List.getD_cons_zero]
          exact (not_le.mp hx).le
        | succ j' =>
          simp only [List.getD_cons_succ]
          exact ih j' (by simpa using Nat.lt_of_succ_lt_succ hj)

/-- Every index strictly before `first_min_index` holds a strictly larger
value: the chosen index is the first one attaining the minimum, matching
Python `min`'s earliest-wins tie behaviour. -/
theorem first_min_index_first (l : List ℚ) :
    ∀ j, j < first_min_index l →
      l.getD (first_min_index l) 0 < l.getD j 0 := by
  induction l with
  | nil => intro j hj; simp [first_min_index] at hj
  | cons x xs ih =>
    cases xs with
    | nil =>
      intro j hj
      simp [first_min_index] at hj
    | cons y ys =>
      simp only [first_min_index]
      by_cases hx : x ≤ (y :: ys).getD (first_min_index (y :: ys)) 0
      · rw [if_pos hx]
        intro j hj
        exact absurd hj (Nat.not_lt_zero j)
      · rw [if_neg hx]
        intro j hj
        cases j with
        | zero =>
          simp only [List.getD_cons_succ, List.getD_cons_zero]
          exact not_le.mp hx
        | succ j' =>
          simp only [List.getD_cons_succ]
          exact ih j' (Nat.lt_of_succ_lt_succ hj)

/-- C5: for every non-empty pair of equal-length salvage and cost arrays
and every rate in the spec's valid domain (`rate > -1`, §4.1; in this
domain no denominator of the source vanishes and the embedding is exact),
`economic_life_analysis` returns an optimal life `n` with
`1 ≤ n ≤ len(annual_costs)` whose EAC is `≤` the EAC of every candidate
in the returned per-year table, every candidate attaining the minimum has a
year `≥` the returned one (ties break to the smallest `n`), and the
returned minimum EAC is realised at the returned optimal year. -/
theorem economic_life_analysis_minimizes
    (equipment_cost : ℚ) (salvage_values annual_costs : List ℚ)
    (interest_rate : ℚ) (res : EconomicLifeResult)
    (hne : annual_costs ≠ [])
    (hlen : salvage_values.length = annual_costs.length)
    (hrate : -1 < interest_rate)
    (hres : res = economic_life_analysis equipment_cost salvage_values
      annual_costs interest_rate) :
    (1 ≤ res.optimal_economic_life ∧
      res.optimal_economic_life ≤ annual_costs.length) ∧
    (∀ e ∈ res.eac_analysis,
      res.minimum_equivalent_annual_cost ≤ e.equivalent_annual_cost) ∧
    (∀ e ∈ res.eac_analysis,
      e.equivalent_annual_cost = res.minimum_equivalent_annual_cost →
        res.optimal_economic_life ≤ e.year) ∧
    (∃ e ∈ res.eac_analysis, e.year = res.optimal_economic_life ∧
      e.equivalent_annual_cost = res.minimum_equivalent_annual_cost) := by
  subst hres
  dsimp only [economic_life_analysis]
  set entries := (List.range annual_costs.length).map
    (fun i => economic_life_entry equipment_cost salvage_values annual_costs
      interest_rate (i + 1)) with hentries
  set eacs := entries.map (fun e => e.equivalent_annual_cost) with heacs
  set idx := first_min_index eacs with hidx
  have hlen_entries : entries.length = annual_costs.length := by
    rw [hentries]; simp
  have hlen_eacs : eacs.length = annual_costs.length := by
    rw [heacs, List.length_map, hlen_entries]
  have hyears_pos : 0 < annual_costs.length := List.length_pos.mpr hne
  have hidx_lt : idx < annual_costs.length := by
    have hne' : eacs ≠ [] := by
      intro h
      rw [h] at hlen_eacs
      simp at hlen_eacs
      omega
    have := first_min_index_lt_length eacs hne'
    rwa [hlen_eacs] at this
  have hidx_lt_entries : idx < entries.length := by rwa [hlen_entries]
  have hgetD : entries.getD idx ⟨0, 0, 0, 0, 0⟩ = entries[idx] :=
    List.getD_eq_getElem entries _ hidx_lt_entries
  have hentry : ∀ (i : ℕ) (h : i < entries.length),
      entries[i] = economic_life_entry equipment_cost salvage_values
        annual_costs interest_rate (i + 1) := by
    intro i h
    have hb : i < ((List.range annual_costs.length).map
        (fun i => economic_life_entry equipment_cost salvage_values
          annual_costs interest_rate (i + 1))).length := by
      simpa using hlen_entries ▸ h
    show ((List.range annual_costs.length).map
      (fun i => economic_life_entry equipment_cost salvage_values annual_costs
        interest_rate (i + 1)))[i] =
      economic_life_entry equipment_cost salvage_values annual_costs
        interest_rate (i + 1)
    rw [List.getElem_map, List.getElem_range]
  have hyear : ∀ (i : ℕ) (h : i < entries.length),
      (entries[i]).year = i + 1 := by
    intro i h
    rw [hentry i h]
    rfl
  have heacget : ∀ (i : ℕ) (h : i < entries.length),
      eacs.getD i 0 = (entries[i]).equivalent_annual_cost := by
    intro i h
    rw [heacs]
    rw [List.getD_eq_getElem _ _ (by simpa using h)]
    rw [List.getElem_map]
  refine ⟨?_, ?_, ?_, ?_⟩
  · rw [hgetD, hyear idx hidx_lt_entries]
    omega
  · intro e he
    obtain ⟨j, hj, hje⟩ := List.mem_iff_getElem.mp he
    have h1 : eacs.getD idx 0 ≤ eacs.getD j 0 :=
      first_min_index_min eacs j (by rw [hlen_eacs]; rwa [hlen_entries] at hj)
    rw [heacget idx hidx_lt_entries, heacget j hj] at h1
    rw [hgetD]
    rw [← hje]
    exact h1
  · intro e he heq
    obtain ⟨j, hj, hje⟩ := List.mem_iff_getElem.mp he
    rw [hgetD, hyear idx hidx_lt_entries]
    rw [← hje]
    rw [hyear j hj]
    by_contra hlt
    push_neg at hlt
    have hjlt : j < idx := by omega
    have h2 : eacs.getD idx 0 < eacs.getD j 0 :=
      first_min_index_first eacs j hjlt
    rw [heacget idx hidx_lt_entries, heacget j hj] at h2
    rw [hgetD] at heq
    rw [← hje] at heq
    rw [heq] at h2
    exact lt_irrefl _ h2
  · refine ⟨entries[idx], List.getElem_mem hidx_lt_entries, ?_, ?_⟩
    · rw [hgetD]
    · rw [hgetD]

/-- Witness for C5 at `equipment_cost = 100`, `salvage_values = [5, 4]`,
`annual_costs = [10, 20]`, `rate = 0`. -/
theorem economic_life_analysis_minimizes_witness :
    (([10, 20] : List ℚ) ≠ [] ∧
      ([5, 4] : List ℚ).length = ([10, 20] : List ℚ).length ∧
      (-1 : ℚ) < 0) ∧
    ((1 ≤ (economic_life_analysis 100 [5, 4] [10, 20]
          0).optimal_economic_life ∧
      (economic_life_analysis 100 [5, 4] [10, 20]
          0).optimal_economic_life ≤ ([10, 20] : List ℚ).length) ∧
    (∀ e ∈ (economic_life_analysis 100 [5, 4] [10, 20] 0).eac_analysis,
      (economic_life_analysis 100 [5, 4] [10, 20]
          0).minimum_equivalent_annual_cost ≤ e.equivalent_annual_cost) ∧
    (∀ e ∈ (economic_life_analysis 100 [5, 4] [10, 20] 0).eac_analysis,
      e.equivalent_annual_cost =
          (economic_life_analysis 100 [5, 4] [10, 20]
            0).minimum_equivalent_annual_cost →
        (economic_life_analysis 100 [5, 4] [10, 20]
          0).optimal_economic_life ≤ e.year) ∧
    (∃ e ∈ (economic_life_analysis 100 [5, 4] [10, 20] 0).eac_analysis,
      e.year = (economic_life_analysis 100 [5, 4] [10, 20]
          0).optimal_economic_life ∧
      e.equivalent_annual_cost =
        (economic_life_analysis 100 [5, 4] [10, 20]
          0).minimum_equivalent_annual_cost)) :=
  ⟨⟨by simp, by simp, by norm_num⟩,
    economic_life_analysis_minimizes 100 [5, 4] [10, 20] 0
      (economic_life_analysis 100 [5, 4] [10, 20] 0)
      (by simp) (by simp) (by norm_num) rfl⟩

/-! ## Theorems for claims C8, C9, C10 -/

/-- C8 counterexample: `baseCapacity = -1000 < 0` (and `newCapacity < 0`),
yet `scaling_law_cost` returns a computed result, not a `DomainError`:
the source checks only `base_capacity == 0`. -/
theorem scaling_law_cost_counterexample :
    (-1000 : ℝ) < 0 ∧
      (scaling_law_cost 500000 (-1000) (-1500) (6 / 10)).isOk = true := by
  refine ⟨by norm_num, ?_⟩
  have h1 : (-1000 : ℝ) ≠ 0 := by norm_num
  have h2 : (500000 : ℝ) ≠ 0 := by norm_num
  have h3 : (-1500 : ℝ) ≠ 0 := by norm_num
  simp only [scaling_law_cost, if_neg h1, if_neg h2, if_neg h3]
  rfl

/-- C8 amended: `scaling_law_cost` fails with the `DomainError`
`'Base capacity cannot be zero'` exactly when `baseCapacity = 0`; in
particular negative capacities are not rejected by any domain check. -/
theorem scaling_law_cost_domain_error_iff
    (base_cost base_capacity new_capacity scaling_exponent : ℝ) :
    scaling_law_cost base_cost base_capacity new_capacity scaling_exponent =
        Except.error "Base capacity cannot be zero" ↔
      base_capacity = 0 := by
  constructor
  · intro h
    by_contra hne
    simp only [scaling_law_cost, if_neg hne] at h
    split at h
    · simp at h
    · split at h
      · simp at h
      · simp at h
  · intro h
    simp [scaling_law_cost, h]

/-- C9: with `equipmentCost = 0` (so `totalPlantCost = lang_factor * 0 = 0`),
`lang_factor_estimate` hits the unguarded division by `total_plant_cost`
in the percentage computation and raises `ZeroDivisionError` instead of
returning a result, for every Lang factor. -/
theorem lang_factor_estimate_zero_equipment_raises (lang_factor : ℚ) :
    lang_factor_estimate 0 lang_factor =
      Except.error "ZeroDivisionError: float division by zero" := by
  simp [lang_factor_estimate]

/-- C10: for every industry string other than the two known keys,
`detailed_cost_breakdown` silently substitutes `'Chemical Processing'`:
the whole result (costs, percentages, total) equals the one computed for
`'Chemical Processing'`, and the reported `industry_type` is
`'Chemical Processing'`, not the caller's string. -/
theorem detailed_cost_breakdown_unknown_industry (equipment_cost : ℚ)
    (industry_type : String)
    (h1 : industry_type ≠ "Chemical Processing")
    (h2 : industry_type ≠ "Petrochemical") :
    detailed_cost_breakdown equipment_cost industry_type =
        detailed_cost_breakdown equipment_cost "Chemical Processing" ∧
      (detailed_cost_breakdown equipment_cost industry_type).industry_type =
        "Chemical Processing" := by
  have hcond : ¬(industry_type = "Chemical Processing" ∨
      industry_type = "Petrochemical") := by
    rintro (h | h)
    · exact h1 h
    · exact h2 h
  constructor
  · simp only [detailed_cost_breakdown, if_neg hcond]
    simp
  · simp only [detailed_cost_breakdown, if_neg hcond]

/-- Witness for C10 with the unknown industry string `"Pharma"`. -/
theorem detailed_cost_breakdown_unknown_industry_witness :
    ("Pharma" ≠ "Chemical Processing" ∧ "Pharma" ≠ "Petrochemical") ∧
      (detailed_cost_breakdown 1000 "Pharma" =
          detailed_cost_breakdown 1000 "Chemical Processing" ∧
        (detailed_cost_breakdown 1000 "Pharma").industry_type =
          "Chemical Processing") :=
  ⟨⟨by decide, by decide⟩,
    detailed_cost_breakdown_unknown_industry 1000 "Pharma"
      (by decide) (by decide)⟩

end PlantEcon
